import Mathlib

/-!
Shallow embedding of the Manufacturing AI Engine dashboard (src/app.py).

The computational surface of the program is:
  * min-max normalization of the columns Yield, Energy_Consumption and
    Quality_Score over the whole dataset, producing the derived columns
    Yield_Score, Energy_Score, Quality_Score_Norm, Optimization_Score
    (app.py lines 32-42);
  * selection of the initial Golden Signature as the arg-max of
    Optimization_Score, pandas idxmax semantics: first index attaining
    the maximum (line 46);
  * per-comparison difference arithmetic and verdict branches (68-83);
  * recommendation strings keyed on sign comparisons (89-96);
  * sustainability estimates (102-104);
  * the guarded replacement of the Golden Signature (111-113).

Numeric columns are modelled as rationals.  Division is guarded: a
division whose divisor is zero returns none, which models the
divide-by-zero failure of the normalization on a degenerate column.
-/

structure Batch where
  Batch_ID : ℕ
  Yield : ℚ
  Energy_Consumption : ℚ
  Quality_Score : ℚ
  Pressure : ℚ
  deriving DecidableEq, Repr

/-- Guarded division: the zero-divisor branch yields none. -/
def gdiv (a b : ℚ) : Option ℚ :=
  if b = 0 then none else some (a / b)

/-- Maximum of a list of rationals, none on the empty list
(embeds the pandas Series.max over a column). -/
def listMax : List ℚ → Option ℚ
  | [] => none
  | x :: xs =>
    match listMax xs with
    | none => some x
    | some m => some (max x m)

/-- Minimum of a list of rationals, none on the empty list
(embeds the pandas Series.min over a column). -/
def listMin : List ℚ → Option ℚ
  | [] => none
  | x :: xs =>
    match listMin xs with
    | none => some x
    | some m => some (min x m)

/-- Column maximum over the dataset. -/
def colMax (f : Batch → ℚ) (d : List Batch) : ℚ :=
  (listMax (d.map f)).getD 0

/-- Column minimum over the dataset. -/
def colMin (f : Batch → ℚ) (d : List Batch) : ℚ :=
  (listMin (d.map f)).getD 0

/-- app.py line 32:
data["Yield_Score"] = (Yield - Yield.min()) / (Yield.max() - Yield.min()). -/
def Yield_Score (d : List Batch) (b : Batch) : Option ℚ :=
  gdiv (b.Yield - colMin Batch.Yield d)
       (colMax Batch.Yield d - colMin Batch.Yield d)

/-- app.py lines 33-34:
data["Energy_Score"] = 1 - ((E - E.min()) / (E.max() - E.min())). -/
def Energy_Score (d : List Batch) (b : Batch) : Option ℚ :=
  (gdiv (b.Energy_Consumption - colMin Batch.Energy_Consumption d)
        (colMax Batch.Energy_Consumption d - colMin Batch.Energy_Consumption d)).map
    (fun x => 1 - x)

/-- app.py lines 35-36:
data["Quality_Score_Norm"] = (Q - Q.min()) / (Q.max() - Q.min()). -/
def Quality_Score_Norm (d : List Batch) (b : Batch) : Option ℚ :=
  gdiv (b.Quality_Score - colMin Batch.Quality_Score d)
       (colMax Batch.Quality_Score d - colMin Batch.Quality_Score d)

/-- app.py lines 38-42:
data["Optimization_Score"] = 0.4*Yield_Score + 0.3*Energy_Score + 0.3*Quality_Score_Norm. -/
def Optimization_Score (d : List Batch) (b : Batch) : Option ℚ :=
  match Yield_Score d b, Energy_Score d b, Quality_Score_Norm d b with
  | some ys, some es, some qn => some (0.4 * ys + 0.3 * es + 0.3 * qn)
  | _, _, _ => none

/-! Spec-side definitions (§4.1 of the spec), written as the spec's
unguarded formulas; compared with the source-side functions above in C1. -/

/-- Spec formula: Yield_Score = (Yield - min(Yield)) / (max(Yield) - min(Yield)). -/
def spec_Yield_Score (d : List Batch) (b : Batch) : ℚ :=
  (b.Yield - colMin Batch.Yield d) / (colMax Batch.Yield d - colMin Batch.Yield d)

/-- Spec formula: Energy_Score = 1 - (E - min(E)) / (max(E) - min(E)). -/
def spec_Energy_Score (d : List Batch) (b : Batch) : ℚ :=
  1 - (b.Energy_Consumption - colMin Batch.Energy_Consumption d) /
      (colMax Batch.Energy_Consumption d - colMin Batch.Energy_Consumption d)

/-- Spec formula: Quality_Score_Norm = (Q - min(Q)) / (max(Q) - min(Q)). -/
def spec_Quality_Score_Norm (d : List Batch) (b : Batch) : ℚ :=
  (b.Quality_Score - colMin Batch.Quality_Score d) /
  (colMax Batch.Quality_Score d - colMin Batch.Quality_Score d)

/-- Spec formula: Optimization_Score = 0.4*Yield_Score + 0.3*Energy_Score
    + 0.3*Quality_Score_Norm. -/
def spec_Optimization_Score (d : List Batch) (b : Batch) : ℚ :=
  0.4 * spec_Yield_Score d b + 0.3 * spec_Energy_Score d b +
  0.3 * spec_Quality_Score_Norm d b

/-- app.py line 68: energy_diff = selected.Energy_Consumption - golden.Energy_Consumption. -/
def energy_diff (candidate reference : Batch) : ℚ :=
  candidate.Energy_Consumption - reference.Energy_Consumption

/-- app.py line 69: yield_diff = selected.Yield - golden.Yield. -/
def yield_diff (candidate reference : Batch) : ℚ :=
  candidate.Yield - reference.Yield

/-- The three verdict outcomes rendered at app.py lines 78-83. -/
inductive Verdict where
  | OUTPERFORMS
  | HIGH_ENERGY_WARNING
  | NEAR_OPTIMAL
  deriving DecidableEq, Repr

/-- app.py lines 78-83: the if / elif / else verdict chain, in source order. -/
def verdict (candidate reference : Batch) : Verdict :=
  if energy_diff candidate reference ≤ 0 ∧ 0 ≤ yield_diff candidate reference then
    Verdict.OUTPERFORMS
  else if 0 < energy_diff candidate reference then
    Verdict.HIGH_ENERGY_WARNING
  else
    Verdict.NEAR_OPTIMAL

/-- app.py lines 89-96: the four independently evaluated recommendation writes. -/
def recommendations (candidate reference : Batch) : List String :=
  (if 0 < energy_diff candidate reference then
      ["Reduce Temperature to decrease energy usage."] else []) ++
  (if yield_diff candidate reference < 0 then
      ["Increase Machine Speed to improve yield."] else []) ++
  (if reference.Pressure < candidate.Pressure then
      ["Adjust Pressure to optimal range."] else []) ++
  (if energy_diff candidate reference ≤ 0 ∧ 0 ≤ yield_diff candidate reference then
      ["Maintain current configuration — high efficiency detected."] else [])

/-- app.py line 102: energy_saved = max(0, -energy_diff). -/
def energy_saved (ed : ℚ) : ℚ := max 0 (-ed)

/-- app.py line 103: carbon_saved = energy_saved * 0.8. -/
def carbon_saved (ed : ℚ) : ℚ := energy_saved ed * 0.8

/-- app.py line 104: cost_saved = energy_saved * 8. -/
def cost_saved (ed : ℚ) : ℚ := energy_saved ed * 8

/-- app.py lines 111-113: the approve button exists only under the
OUTPERFORMS condition; pressing it replaces the Golden Signature by the
selected batch, otherwise the state is unchanged. -/
def approveStep (golden candidate : Batch) (pressed : Bool) : Batch :=
  if energy_diff candidate golden ≤ 0 ∧ 0 ≤ yield_diff candidate golden then
    (if pressed then candidate else golden)
  else golden

/-- First index of the maximum together with its value
(pandas Series.idxmax keeps the first occurrence on ties). -/
def idxmaxPair : List ℚ → Option (ℕ × ℚ)
  | [] => none
  | x :: xs =>
    match idxmaxPair xs with
    | none => some (0, x)
    | some (j, m) => if x < m then some (j + 1, m) else some (0, x)

/-- pandas idxmax: index of the first occurrence of the maximum. -/
def idxmax (l : List ℚ) : Option ℕ :=
  (idxmaxPair l).map Prod.fst

/-- The Optimization_Score column: scores of every row, none if any row
fails to normalize. -/
def optScores (d : List Batch) : List Batch → Option (List ℚ)
  | [] => some []
  | b :: bs =>
    match Optimization_Score d b, optScores d bs with
    | some s, some ss => some (s :: ss)
    | _, _ => none

/-- app.py line 46: data.loc[data["Optimization_Score"].idxmax()]. -/
def selectInitial (d : List Batch) : Option Batch :=
  match optScores d d with
  | none => none
  | some ss =>
    match idxmax ss with
    | none => none
    | some i => d[i]?

/-! Concrete batches used by the witnesses: the two-row example of §8 of
the spec, and a three-row dataset exercising the approval guard. -/

/-- Spec §8 example row A: Yield=90, Energy=50, Quality=80, Pressure=10. -/
def rowA : Batch := ⟨0, 90, 50, 80, 10⟩

/-- Spec §8 example row B: Yield=95, Energy=40, Quality=85, Pressure=12. -/
def rowB : Batch := ⟨1, 95, 40, 85, 12⟩

/-- The two-row example dataset of spec §8. -/
def dsAB : List Batch := [rowA, rowB]

example :
    Yield_Score dsAB rowB = some 1 := by
  norm_num [Yield_Score, gdiv, colMax, colMin, listMax, listMin, dsAB, rowA, rowB]

example :
    Optimization_Score dsAB rowB = some 1 := by
  norm_num [Optimization_Score, Yield_Score, Energy_Score, Quality_Score_Norm,
    gdiv, colMax, colMin, listMax, listMin, dsAB, rowA, rowB]

example :
    verdict rowA rowB = Verdict.HIGH_ENERGY_WARNING := by
  norm_num [verdict, energy_diff, yield_diff, rowA, rowB]

/-! ## Helper lemmas about list maxima and minima -/

lemma idxmaxPair_eq_none {l : List ℚ} (h : idxmaxPair l = none) : l = [] := by
  cases l with
  | nil => rfl
  | cons x xs =>
    exfalso
    simp only [idxmaxPair] at h
    cases h' : idxmaxPair xs with
    | none => rw [h'] at h; simp at h
    | some p =>
      obtain ⟨j, m⟩ := p
      rw [h'] at h
      by_cases hx : x < m <;> simp [hx] at h

lemma listMax_eq_none {l : List ℚ} (h : listMax l = none) : l = [] := by
  cases l with
  | nil => rfl
  | cons x xs =>
    exfalso
    simp only [listMax] at h
    cases h' : listMax xs <;> rw [h'] at h <;> simp at h

lemma listMin_eq_none {l : List ℚ} (h : listMin l = none) : l = [] := by
  cases l with
  | nil => rfl
  | cons x xs =>
    exfalso
    simp only [listMin] at h
    cases h' : listMin xs <;> rw [h'] at h <;> simp at h

lemma listMax_mem {l : List ℚ} {m : ℚ} (h : listMax l = some m) : m ∈ l := by
  induction l generalizing m with
  | nil => simp [listMax] at h
  | cons x xs ih =>
    simp only [listMax] at h
    cases h' : listMax xs with
    | none =>
      rw [h'] at h
      simp only [Option.some.injEq] at h
      simp [← h]
    | some m' =>
      rw [h'] at h
      simp only [Option.some.injEq] at h
      rcases max_choice x m' with hc | hc
      · simp [← h, hc]
      · right
        rw [← h, hc]
        exact ih h'

lemma le_listMax {l : List ℚ} {m x : ℚ} (h : listMax l = some m) (hx : x ∈ l) :
    x ≤ m := by
  induction l generalizing m with
  | nil => simp at hx
  | cons y ys ih =>
    simp only [listMax] at h
    cases h' : listMax ys with
    | none =>
      rw [h'] at h
      simp only [Option.some.injEq] at h
      have hnil : ys = [] := listMax_eq_none h'
      subst hnil
      simp at hx
      rw [hx, h]
    | some m' =>
      rw [h'] at h
      simp only [Option.some.injEq] at h
      rcases List.mem_cons.mp hx with hxy | hxys
      · rw [hxy, ← h]; exact le_max_left _ _
      · calc x ≤ m' := ih h' hxys
          _ ≤ max y m' := le_max_right _ _
          _ = m := h

lemma listMin_mem {l : List ℚ} {m : ℚ} (h : listMin l = some m) : m ∈ l := by
  induction l generalizing m with
  | nil => simp [listMin] at h
  | cons x xs ih =>
    simp only [listMin] at h
    cases h' : listMin xs with
    | none =>
      rw [h'] at h
      simp only [Option.some.injEq] at h
      simp [← h]
    | some m' =>
      rw [h'] at h
      simp only [Option.some.injEq] at h
      rcases min_choice x m' with hc | hc
      · simp [← h, hc]
      · right
        rw [← h, hc]
        exact ih h'

lemma listMin_le {l : List ℚ} {m x : ℚ} (h : listMin l = some m) (hx : x ∈ l) :
    m ≤ x := by
  induction l generalizing m with
  | nil => simp at hx
  | cons y ys ih =>
    simp only [listMin] at h
    cases h' : listMin ys with
    | none =>
      rw [h'] at h
      simp only [Option.some.injEq] at h
      have hnil : ys = [] := listMin_eq_none h'
      subst hnil
      simp at hx
      rw [hx, ← h]
    | some m' =>
      rw [h'] at h
      simp only [Option.some.injEq] at h
      rcases List.mem_cons.mp hx with hxy | hxys
      · rw [hxy, ← h]; exact min_le_left _ _
      · calc m = min y m' := h.symm
          _ ≤ m' := min_le_right _ _
          _ ≤ x := ih h' hxys

lemma listMax_isSome {l : List ℚ} (h : l ≠ []) : ∃ m, listMax l = some m := by
  cases l with
  | nil => exact absurd rfl h
  | cons x xs =>
    simp only [listMax]
    cases listMax xs with
    | none => exact ⟨x, rfl⟩
    | some m => exact ⟨max x m, rfl⟩

lemma listMin_isSome {l : List ℚ} (h : l ≠ []) : ∃ m, listMin l = some m := by
  cases l with
  | nil => exact absurd rfl h
  | cons x xs =>
    simp only [listMin]
    cases listMin xs with
    | none => exact ⟨x, rfl⟩
    | some m => exact ⟨min x m, rfl⟩

lemma colMin_le_of_mem {f : Batch → ℚ} {d : List Batch} {b : Batch} (hb : b ∈ d) :
    colMin f d ≤ f b := by
  have hne : d.map f ≠ [] := by
    simp only [ne_eq, List.map_eq_nil_iff]
    rintro rfl
    simp at hb
  obtain ⟨m, hm⟩ := listMin_isSome hne
  have : colMin f d = m := by simp [colMin, hm]
  rw [this]
  exact listMin_le hm (List.mem_map_of_mem f hb)

lemma le_colMax_of_mem {f : Batch → ℚ} {d : List Batch} {b : Batch} (hb : b ∈ d) :
    f b ≤ colMax f d := by
  have hne : d.map f ≠ [] := by
    simp only [ne_eq, List.map_eq_nil_iff]
    rintro rfl
    simp at hb
  obtain ⟨m, hm⟩ := listMax_isSome hne
  have : colMax f d = m := by simp [colMax, hm]
  rw [this]
  exact le_listMax hm (List.mem_map_of_mem f hb)

/-! ## Bridge lemmas: guarded scores agree with the spec formulas on
nondegenerate columns -/

lemma Yield_Score_eq_spec {d : List Batch} (b : Batch)
    (hY : colMax Batch.Yield d ≠ colMin Batch.Yield d) :
    Yield_Score d b = some (spec_Yield_Score d b) := by
  have hden : colMax Batch.Yield d - colMin Batch.Yield d ≠ 0 :=
    sub_ne_zero.mpr hY
  simp [Yield_Score, gdiv, hden, spec_Yield_Score]

lemma Energy_Score_eq_spec {d : List Batch} (b : Batch)
    (hE : colMax Batch.Energy_Consumption d ≠ colMin Batch.Energy_Consumption d) :
    Energy_Score d b = some (spec_Energy_Score d b) := by
  have hden : colMax Batch.Energy_Consumption d - colMin Batch.Energy_Consumption d ≠ 0 :=
    sub_ne_zero.mpr hE
  simp [Energy_Score, gdiv, hden, spec_Energy_Score]

lemma Quality_Score_Norm_eq_spec {d : List Batch} (b : Batch)
    (hQ : colMax Batch.Quality_Score d ≠ colMin Batch.Quality_Score d) :
    Quality_Score_Norm d b = some (spec_Quality_Score_Norm d b) := by
  have hden : colMax Batch.Quality_Score d - colMin Batch.Quality_Score d ≠ 0 :=
    sub_ne_zero.mpr hQ
  simp [Quality_Score_Norm, gdiv, hden, spec_Quality_Score_Norm]

lemma Optimization_Score_eq_spec {d : List Batch} (b : Batch)
    (hY : colMax Batch.Yield d ≠ colMin Batch.Yield d)
    (hE : colMax Batch.Energy_Consumption d ≠ colMin Batch.Energy_Consumption d)
    (hQ : colMax Batch.Quality_Score d ≠ colMin Batch.Quality_Score d) :
    Optimization_Score d b = some (spec_Optimization_Score d b) := by
  rw [Optimization_Score, Yield_Score_eq_spec b hY, Energy_Score_eq_spec b hE,
    Quality_Score_Norm_eq_spec b hQ]
  rfl

/-- C1: For every row of the dataset, the derived columns are computed as
Yield_Score = (Yield - min)/(max - min), Energy_Score = 1 - (E - min)/(max - min),
Quality_Score_Norm = (Q - min)/(max - min), and
Optimization_Score = 0.4*Yield_Score + 0.3*Energy_Score + 0.3*Quality_Score_Norm,
with each min and max taken over the whole dataset. -/
theorem C1_derived_columns_are_spec_formulas (d : List Batch) (b : Batch)
    (hY : colMax Batch.Yield d ≠ colMin Batch.Yield d)
    (hE : colMax Batch.Energy_Consumption d ≠ colMin Batch.Energy_Consumption d)
    (hQ : colMax Batch.Quality_Score d ≠ colMin Batch.Quality_Score d) :
    Yield_Score d b = some (spec_Yield_Score d b) ∧
    Energy_Score d b = some (spec_Energy_Score d b) ∧
    Quality_Score_Norm d b = some (spec_Quality_Score_Norm d b) ∧
    Optimization_Score d b = some (spec_Optimization_Score d b) :=
  ⟨Yield_Score_eq_spec b hY, Energy_Score_eq_spec b hE,
   Quality_Score_Norm_eq_spec b hQ, Optimization_Score_eq_spec b hY hE hQ⟩

/-- C1 witness: instantiated on the two-row dataset of spec §8. -/
theorem C1_witness :
    colMax Batch.Yield dsAB ≠ colMin Batch.Yield dsAB ∧
    colMax Batch.Energy_Consumption dsAB ≠ colMin Batch.Energy_Consumption dsAB ∧
    colMax Batch.Quality_Score dsAB ≠ colMin Batch.Quality_Score dsAB ∧
    Optimization_Score dsAB rowB = some (spec_Optimization_Score dsAB rowB) := by
  have hY : colMax Batch.Yield dsAB ≠ colMin Batch.Yield dsAB := by
    norm_num [colMax, colMin, listMax, listMin, dsAB, rowA, rowB]
  have hE : colMax Batch.Energy_Consumption dsAB ≠ colMin Batch.Energy_Consumption dsAB := by
    norm_num [colMax, colMin, listMax, listMin, dsAB, rowA, rowB]
  have hQ : colMax Batch.Quality_Score dsAB ≠ colMin Batch.Quality_Score dsAB := by
    norm_num [colMax, colMin, listMax, listMin, dsAB, rowA, rowB]
  exact ⟨hY, hE, hQ, (C1_derived_columns_are_spec_formulas dsAB rowB hY hE hQ).2.2.2⟩

/-- C2: the verdict is OUTPERFORMS if energy_diff ≤ 0 and yield_diff ≥ 0;
otherwise HIGH_ENERGY_WARNING if energy_diff > 0; otherwise NEAR_OPTIMAL;
and NEAR_OPTIMAL is produced exactly when energy_diff ≤ 0 and yield_diff < 0. -/
theorem C2_verdict_branches (c r : Batch) :
    (energy_diff c r ≤ 0 ∧ 0 ≤ yield_diff c r → verdict c r = Verdict.OUTPERFORMS) ∧
    (¬(energy_diff c r ≤ 0 ∧ 0 ≤ yield_diff c r) → 0 < energy_diff c r →
        verdict c r = Verdict.HIGH_ENERGY_WARNING) ∧
    (¬(energy_diff c r ≤ 0 ∧ 0 ≤ yield_diff c r) → ¬(0 < energy_diff c r) →
        verdict c r = Verdict.NEAR_OPTIMAL) ∧
    (verdict c r = Verdict.NEAR_OPTIMAL ↔
        energy_diff c r ≤ 0 ∧ yield_diff c r < 0) := by
  unfold verdict
  split_ifs with h1 h2 <;> simp_all

/-- C2 witness: a candidate saving energy but losing yield gets NEAR_OPTIMAL. -/
theorem C2_witness :
    ¬(energy_diff rowA rowB ≤ 0 ∧ 0 ≤ yield_diff rowA rowB) ∧
    verdict rowB rowA = Verdict.OUTPERFORMS := by
  constructor
  · norm_num [energy_diff, yield_diff, rowA, rowB]
  · exact (C2_verdict_branches rowB rowA).1
      (by norm_num [energy_diff, yield_diff, rowA, rowB])

/-- C6: the sustainability estimator returns energy_saved = max(0, -energy_diff),
carbon_saved = energy_saved * 0.8 and cost_saved = energy_saved * 8; none of
the three is ever negative, and energy_saved = 0 whenever energy_diff ≥ 0. -/
theorem C6_sustainability (ed : ℚ) :
    energy_saved ed = max 0 (-ed) ∧
    carbon_saved ed = energy_saved ed * 0.8 ∧
    cost_saved ed = energy_saved ed * 8 ∧
    0 ≤ energy_saved ed ∧ 0 ≤ carbon_saved ed ∧ 0 ≤ cost_saved ed ∧
    (0 ≤ ed → energy_saved ed = 0) := by
  have h0 : 0 ≤ energy_saved ed := le_max_left 0 (-ed)
  refine ⟨rfl, rfl, rfl, h0, ?_, ?_, ?_⟩
  · have : (0:ℚ) ≤ 0.8 := by norm_num
    exact mul_nonneg h0 this
  · have : (0:ℚ) ≤ 8 := by norm_num
    exact mul_nonneg h0 this
  · intro hed
    have : -ed ≤ 0 := neg_nonpos.mpr hed
    simpa [energy_saved] using max_eq_left this

/-- C6 witness: at energy_diff = 5 the saved energy is 0. -/
theorem C6_witness : (0:ℚ) ≤ 5 ∧ energy_saved 5 = 0 :=
  ⟨by norm_num, (C6_sustainability 5).2.2.2.2.2.2 (by norm_num)⟩

/-- C7: the recommendation list contains exactly the strings whose conditions
hold, each condition evaluated independently; zero or more strings may be
produced and they are not mutually exclusive. -/
theorem C7_recommendations (c r : Batch) :
    ("Reduce Temperature to decrease energy usage." ∈ recommendations c r ↔
        0 < energy_diff c r) ∧
    ("Increase Machine Speed to improve yield." ∈ recommendations c r ↔
        yield_diff c r < 0) ∧
    ("Adjust Pressure to optimal range." ∈ recommendations c r ↔
        r.Pressure < c.Pressure) ∧
    ("Maintain current configuration — high efficiency detected." ∈
        recommendations c r ↔
        energy_diff c r ≤ 0 ∧ 0 ≤ yield_diff c r) ∧
    (∀ s ∈ recommendations c r,
        s = "Reduce Temperature to decrease energy usage." ∨
        s = "Increase Machine Speed to improve yield." ∨
        s = "Adjust Pressure to optimal range." ∨
        s = "Maintain current configuration — high efficiency detected.") := by
  unfold recommendations
  split_ifs with h1 h2 h3 h4 <;> simp_all

/-- C7 witness: spec §8 example, comparing row A against golden row B. -/
theorem C7_witness :
    "Reduce Temperature to decrease energy usage." ∈ recommendations rowA rowB ∧
    "Increase Machine Speed to improve yield." ∈ recommendations rowA rowB := by
  constructor
  · exact (C7_recommendations rowA rowB).1.mpr
      (by norm_num [energy_diff, rowA, rowB])
  · exact (C7_recommendations rowA rowB).2.1.mpr
      (by norm_num [yield_diff, rowA, rowB])

/-- C9: the "Maintain current configuration" recommendation appears iff the
verdict is OUTPERFORMS, and the "Reduce Temperature" recommendation appears
iff the verdict is HIGH_ENERGY_WARNING: each recommendation condition is the
same predicate as the corresponding verdict branch. -/
theorem C9_recommendation_verdict_agreement (c r : Batch) :
    ("Maintain current configuration — high efficiency detected." ∈
        recommendations c r ↔ verdict c r = Verdict.OUTPERFORMS) ∧
    ("Reduce Temperature to decrease energy usage." ∈ recommendations c r ↔
        verdict c r = Verdict.HIGH_ENERGY_WARNING) := by
  unfold recommendations verdict
  split_ifs with h1 h2 h3 h4 <;> try simp_all
  all_goals
    first
      | decide
      | (obtain ⟨ha, hb⟩ := ‹energy_diff c r ≤ 0 ∧ 0 ≤ yield_diff c r›; linarith)

/-- C4: the Golden Signature is replaced by the candidate only under verdict
OUTPERFORMS with explicit approval; under any other verdict, or without
approval, the Golden Signature is unchanged. -/
theorem C4_approval_guard (g c : Batch) (pressed : Bool) :
    (verdict c g = Verdict.OUTPERFORMS → approveStep g c true = c) ∧
    (verdict c g ≠ Verdict.OUTPERFORMS → approveStep g c pressed = g) ∧
    approveStep g c false = g := by
  unfold verdict approveStep
  split_ifs with h <;> simp_all

/-- C4 witness: row B outperforms golden row A and is installed on approval;
row A does not outperform golden row B and approval leaves row B in place. -/
theorem C4_witness :
    approveStep rowA rowB true = rowB ∧ approveStep rowB rowA true = rowB := by
  constructor
  · exact (C4_approval_guard rowA rowB true).1
      (by norm_num [verdict, energy_diff, yield_diff, rowA, rowB])
  · refine (C4_approval_guard rowB rowA true).2.1 ?_
    have hv : verdict rowA rowB = Verdict.HIGH_ENERGY_WARNING := by
      norm_num [verdict, energy_diff, yield_diff, rowA, rowB]
    rw [hv]
    intro hcontra
    cases hcontra

/-- C8: if max = min for any of the three normalized columns, the guarded
division reaches its zero-divisor branch (the score is none); if max ≠ min
for all three, no division by zero occurs: every score is defined. -/
theorem C8_zero_range_guard (d : List Batch) (b : Batch) :
    (colMax Batch.Yield d = colMin Batch.Yield d → Yield_Score d b = none) ∧
    (colMax Batch.Energy_Consumption d = colMin Batch.Energy_Consumption d →
        Energy_Score d b = none) ∧
    (colMax Batch.Quality_Score d = colMin Batch.Quality_Score d →
        Quality_Score_Norm d b = none) ∧
    (colMax Batch.Yield d ≠ colMin Batch.Yield d →
     colMax Batch.Energy_Consumption d ≠ colMin Batch.Energy_Consumption d →
     colMax Batch.Quality_Score d ≠ colMin Batch.Quality_Score d →
        (Yield_Score d b).isSome ∧ (Energy_Score d b).isSome ∧
        (Quality_Score_Norm d b).isSome ∧ (Optimization_Score d b).isSome) := by
  refine ⟨?_, ?_, ?_, ?_⟩
  · intro h
    simp [Yield_Score, gdiv, sub_eq_zero.mpr h]
  · intro h
    simp [Energy_Score, gdiv, sub_eq_zero.mpr h]
  · intro h
    simp [Quality_Score_Norm, gdiv, sub_eq_zero.mpr h]
  · intro hY hE hQ
    rw [Yield_Score_eq_spec b hY, Energy_Score_eq_spec b hE,
      Quality_Score_Norm_eq_spec b hQ, Optimization_Score_eq_spec b hY hE hQ]
    exact ⟨rfl, rfl, rfl, rfl⟩

/-- C8 witness: a dataset whose Yield column is constant fails to normalize,
while the nondegenerate dataset of spec §8 yields defined scores. -/
theorem C8_witness :
    colMax Batch.Yield [rowA, rowA] = colMin Batch.Yield [rowA, rowA] ∧
    Yield_Score [rowA, rowA] rowA = none ∧
    (Optimization_Score dsAB rowA).isSome := by
  have hcol : colMax Batch.Yield [rowA, rowA] = colMin Batch.Yield [rowA, rowA] := by
    norm_num [colMax, colMin, listMax, listMin, rowA]
  refine ⟨hcol, (C8_zero_range_guard [rowA, rowA] rowA).1 hcol, ?_⟩
  exact ((C8_zero_range_guard dsAB rowA).2.2.2
    (by norm_num [colMax, colMin, listMax, listMin, dsAB, rowA, rowB])
    (by norm_num [colMax, colMin, listMax, listMin, dsAB, rowA, rowB])
    (by norm_num [colMax, colMin, listMax, listMin, dsAB, rowA, rowB])).2.2.2

/-! ## Helper lemma for the unit-interval bounds of min-max ratios -/

lemma ratio_unit_interval {mn mx v : ℚ} (h1 : mn ≤ v) (h2 : v ≤ mx) (hne : mx ≠ mn) :
    0 ≤ (v - mn) / (mx - mn) ∧ (v - mn) / (mx - mn) ≤ 1 ∧
    (v = mx → (v - mn) / (mx - mn) = 1) ∧
    (v = mn → (v - mn) / (mx - mn) = 0) := by
  have hlt : mn < mx := lt_of_le_of_ne (le_trans h1 h2) (Ne.symm hne)
  have hpos : 0 < mx - mn := sub_pos.mpr hlt
  refine ⟨div_nonneg (by linarith) (le_of_lt hpos), ?_, ?_, ?_⟩
  · rw [div_le_one hpos]
    linarith
  · intro hv
    rw [hv]
    exact div_self (ne_of_gt hpos)
  · intro hv
    rw [hv]
    simp

/-- C5: on a dataset where max ≠ min for each normalized column, every row's
Yield_Score, Energy_Score, Quality_Score_Norm and Optimization_Score lie in
[0,1]; the row attaining the column max (min) of Yield or Quality_Score
scores exactly 1 (0), and the row attaining the min (max) of
Energy_Consumption gets Energy_Score exactly 1 (0). -/
theorem C5_scores_unit_interval (d : List Batch) (b : Batch) (hb : b ∈ d)
    (hY : colMax Batch.Yield d ≠ colMin Batch.Yield d)
    (hE : colMax Batch.Energy_Consumption d ≠ colMin Batch.Energy_Consumption d)
    (hQ : colMax Batch.Quality_Score d ≠ colMin Batch.Quality_Score d) :
    (∀ y, Yield_Score d b = some y → 0 ≤ y ∧ y ≤ 1 ∧
        (b.Yield = colMax Batch.Yield d → y = 1) ∧
        (b.Yield = colMin Batch.Yield d → y = 0)) ∧
    (∀ e, Energy_Score d b = some e → 0 ≤ e ∧ e ≤ 1 ∧
        (b.Energy_Consumption = colMin Batch.Energy_Consumption d → e = 1) ∧
        (b.Energy_Consumption = colMax Batch.Energy_Consumption d → e = 0)) ∧
    (∀ q, Quality_Score_Norm d b = some q → 0 ≤ q ∧ q ≤ 1 ∧
        (b.Quality_Score = colMax Batch.Quality_Score d → q = 1) ∧
        (b.Quality_Score = colMin Batch.Quality_Score d → q = 0)) ∧
    (∀ s, Optimization_Score d b = some s → 0 ≤ s ∧ s ≤ 1) := by
  have hYb := ratio_unit_interval (colMin_le_of_mem hb) (le_colMax_of_mem hb) hY
  have hEb := ratio_unit_interval
    (colMin_le_of_mem (f := Batch.Energy_Consumption) hb)
    (le_colMax_of_mem (f := Batch.Energy_Consumption) hb) hE
  have hQb := ratio_unit_interval
    (colMin_le_of_mem (f := Batch.Quality_Score) hb)
    (le_colMax_of_mem (f := Batch.Quality_Score) hb) hQ
  refine ⟨?_, ?_, ?_, ?_⟩
  · intro y hy
    rw [Yield_Score_eq_spec b hY] at hy
    obtain rfl : spec_Yield_Score d b = y := by injection hy
    unfold spec_Yield_Score
    exact ⟨hYb.1, hYb.2.1, hYb.2.2.1, hYb.2.2.2⟩
  · intro e he
    rw [Energy_Score_eq_spec b hE] at he
    obtain rfl : spec_Energy_Score d b = e := by injection he
    unfold spec_Energy_Score
    refine ⟨by linarith [hEb.2.1], by linarith [hEb.1], ?_, ?_⟩
    · intro hmin
      rw [hEb.2.2.2 hmin]
      norm_num
    · intro hmax
      rw [hEb.2.2.1 hmax]
      norm_num
  · intro q hq
    rw [Quality_Score_Norm_eq_spec b hQ] at hq
    obtain rfl : spec_Quality_Score_Norm d b = q := by injection hq
    unfold spec_Quality_Score_Norm
    exact ⟨hQb.1, hQb.2.1, hQb.2.2.1, hQb.2.2.2⟩
  · intro s hs
    rw [Optimization_Score_eq_spec b hY hE hQ] at hs
    obtain rfl : spec_Optimization_Score d b = s := by injection hs
    unfold spec_Optimization_Score spec_Yield_Score spec_Energy_Score
      spec_Quality_Score_Norm
    constructor <;>
      nlinarith [hYb.1, hYb.2.1, hEb.1, hEb.2.1, hQb.1, hQb.2.1]

/-- C5 witness: in the two-row dataset of spec §8, row B attains every
favourable extreme, so its Optimization_Score is in [0,1]. -/
theorem C5_witness :
    rowB ∈ dsAB ∧ (0:ℚ) ≤ 1 ∧
    (∀ s, Optimization_Score dsAB rowB = some s → 0 ≤ s ∧ s ≤ 1) := by
  refine ⟨by simp [dsAB], by norm_num, ?_⟩
  exact (C5_scores_unit_interval dsAB rowB (by simp [dsAB])
    (by norm_num [colMax, colMin, listMax, listMin, dsAB, rowA, rowB])
    (by norm_num [colMax, colMin, listMax, listMin, dsAB, rowA, rowB])
    (by norm_num [colMax, colMin, listMax, listMin, dsAB, rowA, rowB])).2.2.2

/-! ## Arg-max lemmas for the initial Golden Signature selection -/

lemma idxmaxPair_isSome {l : List ℚ} (h : l ≠ []) :
    ∃ j m, idxmaxPair l = some (j, m) := by
  cases hp : idxmaxPair l with
  | none => exact absurd (idxmaxPair_eq_none hp) h
  | some p =>
    obtain ⟨a, b⟩ := p
    exact ⟨a, b, rfl⟩

lemma idxmaxPair_spec {l : List ℚ} {j : ℕ} {m : ℚ}
    (h : idxmaxPair l = some (j, m)) :
    l[j]? = some m ∧ (∀ (k : ℕ) (x : ℚ), l[k]? = some x → x ≤ m) ∧
    (∀ (k : ℕ) (x : ℚ), k < j → l[k]? = some x → x < m) := by
  induction l generalizing j m with
  | nil => simp [idxmaxPair] at h
  | cons y ys ih =>
    simp only [idxmaxPair] at h
    cases h' : idxmaxPair ys with
    | none =>
      rw [h'] at h
      simp only [Option.some.injEq, Prod.mk.injEq] at h
      obtain ⟨hj, hm⟩ := h
      subst hj
      subst hm
      have hys : ys = [] := idxmaxPair_eq_none h'
      subst hys
      refine ⟨by simp, ?_, ?_⟩
      · intro k x hk
        cases k with
        | zero =>
          simp only [List.getElem?_cons_zero, Option.some.injEq] at hk
          exact le_of_eq hk.symm
        | succ k => simp at hk
      · intro k x hk
        omega
    | some p =>
      obtain ⟨j', m'⟩ := p
      rw [h'] at h
      dsimp only at h
      obtain ⟨ha, hb, hc⟩ := ih h'
      by_cases hy : y < m'
      · rw [if_pos hy] at h
        simp only [Option.some.injEq, Prod.mk.injEq] at h
        obtain ⟨hj, hm⟩ := h
        subst hj
        subst hm
        refine ⟨by simpa using ha, ?_, ?_⟩
        · intro k x hk
          cases k with
          | zero =>
            simp only [List.getElem?_cons_zero, Option.some.injEq] at hk
            rw [← hk]
            exact le_of_lt hy
          | succ k =>
            simp only [List.getElem?_cons_succ] at hk
            exact hb k x hk
        · intro k x hklt hk
          cases k with
          | zero =>
            simp only [List.getElem?_cons_zero, Option.some.injEq] at hk
            rw [← hk]
            exact hy
          | succ k =>
            simp only [List.getElem?_cons_succ] at hk
            exact hc k x (by omega) hk
      · rw [if_neg hy] at h
        simp only [Option.some.injEq, Prod.mk.injEq] at h
        obtain ⟨hj, hm⟩ := h
        subst hj
        subst hm
        push_neg at hy
        refine ⟨by simp, ?_, ?_⟩
        · intro k x hk
          cases k with
          | zero =>
            simp only [List.getElem?_cons_zero, Option.some.injEq] at hk
            exact le_of_eq hk.symm
          | succ k =>
            simp only [List.getElem?_cons_succ] at hk
            exact le_trans (hb k x hk) hy
        · intro k x hk
          omega

lemma colMax_nil_eq_colMin_nil (f : Batch → ℚ) : colMax f [] = colMin f [] := rfl

lemma ne_nil_of_col_ne {f : Batch → ℚ} {d : List Batch}
    (h : colMax f d ≠ colMin f d) : d ≠ [] := by
  rintro rfl
  exact h (colMax_nil_eq_colMin_nil f)

lemma optScores_eq_map {d : List Batch}
    (hY : colMax Batch.Yield d ≠ colMin Batch.Yield d)
    (hE : colMax Batch.Energy_Consumption d ≠ colMin Batch.Energy_Consumption d)
    (hQ : colMax Batch.Quality_Score d ≠ colMin Batch.Quality_Score d)
    (l : List Batch) :
    optScores d l = some (l.map (spec_Optimization_Score d)) := by
  induction l with
  | nil => rfl
  | cons b bs ih =>
    simp only [optScores, List.map_cons]
    rw [Optimization_Score_eq_spec b hY hE hQ, ih]

/-- C3: under nondegenerate columns, the initial Golden Signature is the row
with maximal Optimization_Score; on ties, the first such row in dataset
order (stable arg-max). -/
theorem C3_initial_golden_signature_argmax (d : List Batch)
    (hY : colMax Batch.Yield d ≠ colMin Batch.Yield d)
    (hE : colMax Batch.Energy_Consumption d ≠ colMin Batch.Energy_Consumption d)
    (hQ : colMax Batch.Quality_Score d ≠ colMin Batch.Quality_Score d) :
    ∃ (i : ℕ) (b : Batch), selectInitial d = some b ∧ d[i]? = some b ∧
      (∀ (j : ℕ) (c : Batch), d[j]? = some c →
          spec_Optimization_Score d c ≤ spec_Optimization_Score d b) ∧
      (∀ (j : ℕ) (c : Batch), j < i → d[j]? = some c →
          spec_Optimization_Score d c < spec_Optimization_Score d b) := by
  have hne : d ≠ [] := ne_nil_of_col_ne hY
  have hscores : optScores d d = some (d.map (spec_Optimization_Score d)) :=
    optScores_eq_map hY hE hQ d
  have hlne : d.map (spec_Optimization_Score d) ≠ [] := by
    simpa [List.map_eq_nil_iff] using hne
  obtain ⟨j, m, hjm⟩ := idxmaxPair_isSome hlne
  obtain ⟨hget, hall, hfirst⟩ := idxmaxPair_spec hjm
  rw [List.getElem?_map] at hget
  cases hb : d[j]? with
  | none => rw [hb] at hget; simp at hget
  | some b =>
    rw [hb] at hget
    simp only [Option.map_some', Option.some.injEq] at hget
    refine ⟨j, b, ?_, hb, ?_, ?_⟩
    · unfold selectInitial idxmax
      rw [hscores]
      dsimp only
      rw [hjm]
      simpa using hb
    · intro k c hk
      have hkm : (d.map (spec_Optimization_Score d))[k]? =
          some (spec_Optimization_Score d c) := by
        rw [List.getElem?_map, hk]
        rfl
      have hle := hall k (spec_Optimization_Score d c) hkm
      rw [hget]
      exact hle
    · intro k c hkj hk
      have hkm : (d.map (spec_Optimization_Score d))[k]? =
          some (spec_Optimization_Score d c) := by
        rw [List.getElem?_map, hk]
        rfl
      have hlt := hfirst k (spec_Optimization_Score d c) hkj hkm
      rw [hget]
      exact hlt

/-- C3 witness: on the two-row dataset of spec §8 the selection succeeds and
returns a maximal row. -/
theorem C3_witness :
    colMax Batch.Yield dsAB ≠ colMin Batch.Yield dsAB ∧
    (∃ (i : ℕ) (b : Batch), selectInitial dsAB = some b ∧ dsAB[i]? = some b ∧
      (∀ (j : ℕ) (c : Batch), dsAB[j]? = some c →
          spec_Optimization_Score dsAB c ≤ spec_Optimization_Score dsAB b) ∧
      (∀ (j : ℕ) (c : Batch), j < i → dsAB[j]? = some c →
          spec_Optimization_Score dsAB c < spec_Optimization_Score dsAB b)) := by
  refine ⟨by norm_num [colMax, colMin, listMax, listMin, dsAB, rowA, rowB], ?_⟩
  exact C3_initial_golden_signature_argmax dsAB
    (by norm_num [colMax, colMin, listMax, listMin, dsAB, rowA, rowB])
    (by norm_num [colMax, colMin, listMax, listMin, dsAB, rowA, rowB])
    (by norm_num [colMax, colMin, listMax, listMin, dsAB, rowA, rowB])

/-! ## A dataset showing approval is not monotone in Optimization_Score -/

/-- High-quality golden row: Yield=10, Energy=10, Quality=100. -/
def gRow : Batch := ⟨0, 10, 10, 100, 5⟩

/-- Candidate matching gRow on yield and energy but with the worst quality. -/
def cRow : Batch := ⟨1, 10, 10, 0, 5⟩

/-- Filler row making all three columns nondegenerate. -/
def fRow : Batch := ⟨2, 0, 100, 50, 5⟩

/-- Dataset on which an approved OUTPERFORMS candidate lowers the score. -/
def dsG : List Batch := [gRow, cRow, fRow]

/-- C10: approval is not monotone in Optimization_Score: on dsG the initial
Golden Signature is gRow with score 1, the candidate cRow gets verdict
OUTPERFORMS against it, approval installs cRow, yet cRow's
Optimization_Score is 0.7 < 1. -/
theorem C10_approval_not_monotone :
    selectInitial dsG = some gRow ∧
    verdict cRow gRow = Verdict.OUTPERFORMS ∧
    approveStep gRow cRow true = cRow ∧
    Optimization_Score dsG gRow = some 1 ∧
    Optimization_Score dsG cRow = some 0.7 ∧
    (0.7 : ℚ) < 1 := by
  refine ⟨?_, ?_, ?_, ?_, ?_, by norm_num⟩
  · norm_num [selectInitial, optScores, idxmax, idxmaxPair, Optimization_Score,
      Yield_Score, Energy_Score, Quality_Score_Norm, gdiv, colMax, colMin,
      listMax, listMin, dsG, gRow, cRow, fRow]
  · norm_num [verdict, energy_diff, yield_diff, gRow, cRow]
  · norm_num [approveStep, energy_diff, yield_diff, gRow, cRow]
  · norm_num [Optimization_Score, Yield_Score, Energy_Score, Quality_Score_Norm,
      gdiv, colMax, colMin, listMax, listMin, dsG, gRow, cRow, fRow]
  · norm_num [Optimization_Score, Yield_Score, Energy_Score, Quality_Score_Norm,
      gdiv, colMax, colMin, listMax, listMin, dsG, gRow, cRow, fRow]
